import Mathlib

/-!
Shallow embedding of the reminder scheduling and notification delivery core of
the `smart_agenda` repository.

Timestamps (`datetime` in the Python source) are modelled as `Int`, measured in
minutes, so that `evento.data_horario - timedelta(minutes=m)` becomes plain
integer subtraction.  The notification ledger (table `notificacoes`) is a list
of rows together with the next auto-increment id; SQLAlchemy's
`query(...).filter(id == nid).first()` followed by a field update and commit is
modelled by updating the first row of the list that matches the id.
-/

namespace SmartAgenda

/-- Status of a notification row: the strings "PENDENTE", "ENVIADO", "FALHOU"
used in `app/domain/entities.py` and `app/infrastructure/db/repositories.py`. -/
inductive StatusNotificacao where
  | PENDENTE
  | ENVIADO
  | FALHOU
deriving DecidableEq, Repr

/-- `Lembrete` from `app/domain/entities.py`: a lead time in minutes before the
event.  `minutos_antecedencia` is a Python `int`, hence `Int`. -/
structure Lembrete where
  minutos_antecedencia : Int
deriving DecidableEq, Repr

/-- An event as the scheduler reads it from the store (`EventoModel` joined with
the domain entity `Evento` of `app/domain/entities.py`): the `id` is already
assigned by the database. -/
structure Evento where
  id : Nat
  titulo : String
  data_horario : Int
  email_usuario : String
  descricao : Option String
  lembretes : List Lembrete
deriving DecidableEq, Repr

/-- A persisted row of the `notificacoes` table (`NotificacaoModel` in
`app/infrastructure/db/models.py`): the deduplication key is
`(evento_id, lembrete_minutos, canal)`. -/
structure Notificacao where
  id : Nat
  evento_id : Nat
  lembrete_minutos : Int
  canal : String
  status : StatusNotificacao
  data_envio : Option Int
  erro : Option String
deriving DecidableEq, Repr

/-- The notification ledger: the rows of the `notificacoes` table in insertion
order, plus the database's next auto-increment id. -/
structure LedgerState where
  rows : List Notificacao
  nextId : Nat
deriving DecidableEq, Repr

/-- The empty ledger a fresh database starts from (auto-increment ids start
at 1). -/
def ledgerVazio : LedgerState := { rows := [], nextId := 1 }

/-- Update the first element of a list satisfying `p` by `f`; every other
element is untouched.  This is the effect of `query(...).first()` followed by
mutating the returned row and committing. -/
def updateFirst (p : α → Bool) (f : α → α) : List α → List α
  | [] => []
  | x :: xs => if p x then f x :: xs else x :: updateFirst p f xs

/-- `Evento.adicionar_lembrete` from `app/domain/entities.py`: rejects a
negative lead time with `ValueError` (modelled as `Except.error` carrying the
message), otherwise appends the new `Lembrete`. -/
def Evento.adicionar_lembrete (ev : Evento) (minutos : Int) : Except String Evento :=
  if minutos < 0 then
    Except.error "O tempo de antecedência não pode ser negativo."
  else
    Except.ok { ev with lembretes := ev.lembretes ++ [{ minutos_antecedencia := minutos }] }

/-- `SQLAlchemyNotificacaoRepository.criar`: inserts a new row (the caller
passes the field values; the database assigns the id) and returns the new
state together with the assigned id. -/
def criar (st : LedgerState) (evento_id : Nat) (lembrete_minutos : Int) (canal : String)
    (status : StatusNotificacao) (data_envio : Option Int) (erro : Option String) :
    LedgerState × Nat :=
  let nova : Notificacao :=
    { id := st.nextId, evento_id := evento_id, lembrete_minutos := lembrete_minutos,
      canal := canal, status := status, data_envio := data_envio, erro := erro }
  ({ rows := st.rows ++ [nova], nextId := st.nextId + 1 }, st.nextId)

/-- The field update performed by `marcar_enviado` on the row it found:
status `ENVIADO`, `data_envio` set to the current instant, `erro` cleared. -/
def aoEnviado (t : Int) (n : Notificacao) : Notificacao :=
  { n with status := StatusNotificacao.ENVIADO, data_envio := some t, erro := none }

/-- The field update performed by `marcar_falha` on the row it found:
status `FALHOU`, `data_envio` set to the current instant, error text stored. -/
def aoFalha (t : Int) (erro : String) (n : Notificacao) : Notificacao :=
  { n with status := StatusNotificacao.FALHOU, data_envio := some t, erro := some erro }

/-- `SQLAlchemyNotificacaoRepository.marcar_enviado`: looks the row up by id
(`.first()`); when found sets status to `ENVIADO`, `data_envio` to the current
instant `t` and clears `erro`; when not found it silently does nothing. -/
def marcar_enviado (st : LedgerState) (notificacao_id : Nat) (t : Int) : LedgerState :=
  { st with
    rows := updateFirst (fun n => decide (n.id = notificacao_id)) (aoEnviado t) st.rows }

/-- `SQLAlchemyNotificacaoRepository.marcar_falha`: looks the row up by id
(`.first()`); when found sets status to `FALHOU`, `data_envio` to the current
instant `t` and stores the error text; when not found it silently does
nothing. -/
def marcar_falha (st : LedgerState) (notificacao_id : Nat) (t : Int) (erro : String) :
    LedgerState :=
  { st with
    rows := updateFirst (fun n => decide (n.id = notificacao_id)) (aoFalha t erro) st.rows }

/-- The row predicate of `SQLAlchemyNotificacaoRepository.ja_enviada`: same
`evento_id`, `lembrete_minutos` and `canal`, and status `ENVIADO`. -/
def linhaEnviada (n : Notificacao) (evento_id : Nat) (lembrete_minutos : Int)
    (canal : String) : Bool :=
  decide (n.evento_id = evento_id ∧ n.lembrete_minutos = lembrete_minutos ∧
          n.canal = canal ∧ n.status = StatusNotificacao.ENVIADO)

/-- `SQLAlchemyNotificacaoRepository.ja_enviada`: `True` exactly when some row
with status `ENVIADO` exists for the deduplication key.  (`.first()` returning
a row is `List.any` of the filter conditions.) -/
def ja_enviada (st : LedgerState) (evento_id : Nat) (lembrete_minutos : Int)
    (canal : String) : Bool :=
  st.rows.any (fun n => linhaEnviada n evento_id lembrete_minutos canal)

/-- One e-mail handed to the delivery channel (`EmailAdapter.enviar_email`
arguments as prepared by `NotificationService.enviar_notificacao_email`). -/
structure Envio where
  destinatario : String
  assunto : String
  mensagem : String
deriving DecidableEq, Repr

/-- Subject line built by `NotificationService.enviar_notificacao_email`. -/
def montarAssunto (titulo_evento : String) : String :=
  "Lembrete: " ++ titulo_evento

/-- Body built by `NotificationService.enviar_notificacao_email`. -/
def montarMensagem (titulo_evento : String) (data_evento : Int) : String :=
  "Você tem um compromisso agendado!\n\n" ++
  "Título: " ++ titulo_evento ++ "\n" ++
  "Data/Hora: " ++ toString data_evento ++ "\n\n" ++
  "SmartAgenda - Notificação automática"

/-- Outcome of the delivery channel for one `(event, reminder)` attempt:
`none` means the send succeeded, `some e` means it raised an exception whose
`str(...)` is `e`. -/
def SendOracle : Type := Evento → Lembrete → Option String

/-- State threaded through one scheduler cycle: the ledger plus the list of
e-mails handed to the delivery channel so far (attempted sends, successful or
not). -/
def EstadoCiclo : Type := LedgerState × List Envio

/-- The body of `ReminderScheduler.processar_lembretes` once a reminder has
passed the due check (lines 134-187 of `reminder_scheduler.py`): dedup check
via `ja_enviada` (skip when true), create a `PENDENTE` row, attempt the e-mail
through `NotificationService.enviar_notificacao_email`, then `marcar_enviado`
on success or `marcar_falha` (with `str(erro_envio)`) on failure. -/
def tentar_envio (send : SendOracle) (agora : Int) (p : Evento × Lembrete)
    (s : EstadoCiclo) : EstadoCiclo :=
  let evento := p.1
  let lembrete := p.2
  if ja_enviada s.1 evento.id lembrete.minutos_antecedencia "email" then s
  else
    let c := criar s.1 evento.id lembrete.minutos_antecedencia "email"
      StatusNotificacao.PENDENTE none none
    let envio : Envio :=
      { destinatario := evento.email_usuario, assunto := montarAssunto evento.titulo,
        mensagem := montarMensagem evento.titulo evento.data_horario }
    match send evento lembrete with
    | none => (marcar_enviado c.1 c.2 agora, s.2 ++ [envio])
    | some e => (marcar_falha c.1 c.2 agora e, s.2 ++ [envio])

/-- Processing of one `(event, reminder)` pair inside the loops of
`processar_lembretes`: the due check `agora < evento.data_horario -
lembrete.minutos_antecedencia` skips the pair (`continue`), otherwise
`tentar_envio` runs. -/
def processar_par (send : SendOracle) (agora : Int) (evento : Evento)
    (lembrete : Lembrete) (s : EstadoCiclo) : EstadoCiclo :=
  if agora < evento.data_horario - lembrete.minutos_antecedencia then s
  else tentar_envio send agora (evento, lembrete) s

/-- `ReminderScheduler.processar_lembretes`: one cycle over all events and, for
each event, all its reminders, starting from ledger `st`; returns the final
ledger and the e-mails handed to the delivery channel during the cycle. -/
def processar_lembretes (send : SendOracle) (agora : Int) (eventos : List Evento)
    (st : LedgerState) : EstadoCiclo :=
  eventos.foldl
    (fun s evento =>
      evento.lembretes.foldl (fun s2 l => processar_par send agora evento l s2) s)
    (st, [])

/-- The Due-Reminder Evaluator: the `(event, reminder)` pairs the cycle's due
check lets through, i.e. those with `¬ (agora < evento.data_horario -
lembrete.minutos_antecedencia)`. -/
def lembretesDevidos (agora : Int) (eventos : List Evento) : List (Evento × Lembrete) :=
  eventos.flatMap (fun evento =>
    (evento.lembretes.filter
        (fun l => !decide (agora < evento.data_horario - l.minutos_antecedencia))).map
      (fun l => (evento, l)))

/-- The inputs of one scheduler cycle: the instant `datetime.now()` read at the
start of the cycle, the events read from the store, and the delivery-channel
outcomes of this cycle. -/
structure Ciclo where
  agora : Int
  eventos : List Evento
  send : SendOracle

/-- Several scheduler cycles run in succession over the ledger (each cycle's
e-mail log is local to the cycle; the ledger persists across cycles). -/
def runCycles (ciclos : List Ciclo) (st : LedgerState) : LedgerState :=
  ciclos.foldl (fun st c => (processar_lembretes c.send c.agora c.eventos st).1) st

/-- The exception raised when the dedup query itself fails (models a database
error inside `ja_enviada`). -/
def erroDedup : String := "falha no acesso ao banco"

/-- Cycle model with exception propagation, mirroring the `try`/`except` layout
of `processar_lembretes`: only the e-mail send is wrapped in the inner
`try`/`except`, so an exception raised by the dedup call `ja_enviada`
(injected by the oracle `ded` on the queried key) propagates out of the loops
— the remaining reminders of the cycle are not processed and the partial
ledger is kept (each repository write commits individually).  Reminder level:
the inner `for lembrete in lembretes` loop. -/
def procLembretes_exc (ded : Nat → Int → Bool) (send : SendOracle) (agora : Int)
    (evento : Evento) : List Lembrete → LedgerState → LedgerState × Option String
  | [], st => (st, none)
  | l :: ls, st =>
    if agora < evento.data_horario - l.minutos_antecedencia then
      procLembretes_exc ded send agora evento ls st
    else if ded evento.id l.minutos_antecedencia then
      (st, some erroDedup)
    else if ja_enviada st evento.id l.minutos_antecedencia "email" then
      procLembretes_exc ded send agora evento ls st
    else
      let c := criar st evento.id l.minutos_antecedencia "email"
        StatusNotificacao.PENDENTE none none
      match send evento l with
      | none => procLembretes_exc ded send agora evento ls (marcar_enviado c.1 c.2 agora)
      | some e => procLembretes_exc ded send agora evento ls (marcar_falha c.1 c.2 agora e)

/-- Event level of the exception-propagating cycle: the outer `for evento in
eventos` loop; an exception escaping one event's reminder loop aborts the
remaining events of the cycle as well. -/
def procEventos_exc (ded : Nat → Int → Bool) (send : SendOracle) (agora : Int) :
    List Evento → LedgerState → LedgerState × Option String
  | [], st => (st, none)
  | evento :: evs, st =>
    match procLembretes_exc ded send agora evento evento.lembretes st with
    | (st2, none) => procEventos_exc ded send agora evs st2
    | (st2, some e) => (st2, some e)

/-- `processar_lembretes` with exception propagation: returns the ledger as
left by the committed writes, and `some e` when an exception escaped the cycle
(to be caught by the scheduler loop). -/
def processar_lembretes_exc (ded : Nat → Int → Bool) (send : SendOracle) (agora : Int)
    (eventos : List Evento) (st : LedgerState) : LedgerState × Option String :=
  procEventos_exc ded send agora eventos st

/-- The inputs of one cycle of the running scheduler, dedup-failure oracle
included. -/
structure EntradaCiclo where
  agora : Int
  eventos : List Evento
  send : SendOracle
  dedupErro : Nat → Int → Bool

/-- `ReminderScheduler.iniciar`: the `while self.rodando` loop.  Iteration `i`
first reads the `rodando` flag — false exactly when `parar()` was called
during some earlier iteration (`stopDuring j` for `j < i`; the flag is
observed only between cycles, so a `parar()` during iteration `i` takes effect
at the check before iteration `i + 1`).  While running, the whole cycle
`processar_lembretes` executes inside `try`/`except Exception`; an escaping
exception is logged and discarded, and the loop sleeps and continues.  `fuel`
bounds how many further iterations we observe.  Returns the final ledger and
the indices of the cycles that were executed. -/
def iniciar (entradas : Nat → EntradaCiclo) (stopDuring : Nat → Bool) :
    Nat → Nat → LedgerState → LedgerState × List Nat
  | 0, _, st => (st, [])
  | fuel + 1, i, st =>
    if (List.range i).any stopDuring then (st, [])
    else
      let en := entradas i
      let r := processar_lembretes_exc en.dedupErro en.send en.agora en.eventos st
      let resto := iniciar entradas stopDuring fuel (i + 1) r.1
      (resto.1, i :: resto.2)

/-- The `PENDENTE` row `processar_lembretes` inserts for a due, not-yet-sent
reminder. -/
def notifPendente (nid : Nat) (eid : Nat) (lm : Int) : Notificacao :=
  { id := nid, evento_id := eid, lembrete_minutos := lm, canal := "email",
    status := StatusNotificacao.PENDENTE, data_envio := none, erro := none }

/-- The row after a successful attempt: status `ENVIADO`, `data_envio` set,
`erro` cleared. -/
def notifEnviada (nid : Nat) (eid : Nat) (lm : Int) (t : Int) : Notificacao :=
  { id := nid, evento_id := eid, lembrete_minutos := lm, canal := "email",
    status := StatusNotificacao.ENVIADO, data_envio := some t, erro := none }

/-- The row after a failed attempt: status `FALHOU`, `data_envio` set, error
text kept. -/
def notifFalhou (nid : Nat) (eid : Nat) (lm : Int) (t : Int) (e : String) : Notificacao :=
  { id := nid, evento_id := eid, lembrete_minutos := lm, canal := "email",
    status := StatusNotificacao.FALHOU, data_envio := some t, erro := some e }

/-- The e-mail the cycle hands to the delivery channel for an event. -/
def envioDe (evento : Evento) : Envio :=
  { destinatario := evento.email_usuario, assunto := montarAssunto evento.titulo,
    mensagem := montarMensagem evento.titulo evento.data_horario }

/-- Number of rows among `rows` that are `ENVIADO` for the given dedup key. -/
def contagemLinhas (rows : List Notificacao) (eid : Nat) (lm : Int) (canal : String) : Nat :=
  (rows.filter (fun n => linhaEnviada n eid lm canal)).length

/-- Number of ledger rows with status `ENVIADO` for the given dedup key. -/
def contagemEnviadas (st : LedgerState) (eid : Nat) (lm : Int) (canal : String) : Nat :=
  contagemLinhas st.rows eid lm canal

/-- Well-formedness the database guarantees: every stored row's id is below the
auto-increment counter. -/
def BemFormado (st : LedgerState) : Prop :=
  ∀ n ∈ st.rows, n.id < st.nextId

/-- The at-most-once invariant: every dedup key has at most one `ENVIADO`
row. -/
def NoMaxUmaEnviada (st : LedgerState) : Prop :=
  ∀ (eid : Nat) (lm : Int) (canal : String), contagemEnviadas st eid lm canal ≤ 1

/-- The ledger invariant preserved by the scheduler. -/
def InvLedger (st : LedgerState) : Prop :=
  BemFormado st ∧ NoMaxUmaEnviada st

/-- Example event of the spec's end-to-end scenario 1: occurs at 14:30 (minute
870 of the day), one 30-minute reminder. -/
def eventoEx : Evento :=
  { id := 1, titulo := "Reunião", data_horario := 870,
    email_usuario := "ana@example.com", descricao := none,
    lembretes := [{ minutos_antecedencia := 30 }] }

/-- Example event with two reminders (60 and 10 minutes), as in the spec's
end-to-end scenario 3: occurs at 09:00 (minute 540 of the day). -/
def eventoDois : Evento :=
  { id := 1, titulo := "Consulta", data_horario := 540,
    email_usuario := "bob@example.com", descricao := none,
    lembretes := [{ minutos_antecedencia := 60 }, { minutos_antecedencia := 10 }] }

/-- Delivery channel that always succeeds. -/
def sendSempreOk : SendOracle := fun _ _ => none

/-- Delivery channel that always fails with an SMTP timeout. -/
def sendSempreFalha : SendOracle := fun _ _ => some "SMTP timeout"

/-- Ledger holding one `ENVIADO` row for key `(1, 30, "email")`. -/
def ledgerComEnviado : LedgerState :=
  { rows := [notifEnviada 1 1 30 840], nextId := 2 }

/-- Ledger holding one `FALHOU` row for key `(1, 30, "email")`. -/
def ledgerComFalha : LedgerState :=
  { rows := [notifFalhou 1 1 30 840 "SMTP timeout"], nextId := 2 }

/-- Dedup oracle whose database query raises exactly on key `(1, 60)`. -/
def dedupFalhaEm60 : Nat → Int → Bool := fun eid lm => decide (eid = 1 ∧ lm = 60)

/-! ### Helper lemmas -/

theorem updateFirst_nenhum (p : α → Bool) (f : α → α) (l : List α)
    (h : ∀ x ∈ l, p x = false) : updateFirst p f l = l := by
  induction l with
  | nil => rfl
  | cons x xs ih =>
    have hx : p x = false := h x (List.mem_cons_self x xs)
    simp [updateFirst, hx, ih (fun y hy => h y (List.mem_cons_of_mem x hy))]

theorem updateFirst_meio (p : α → Bool) (f : α → α) (r : α) (ys : List α)
    (xs : List α) (hxs : ∀ x ∈ xs, p x = false) (hr : p r = true) :
    updateFirst p f (xs ++ r :: ys) = xs ++ f r :: ys := by
  induction xs with
  | nil => simp [updateFirst, hr]
  | cons x xs ih =>
    have hx : p x = false := hxs x (List.mem_cons_self x xs)
    simp only [List.cons_append, updateFirst, hx]
    simp [ih (fun y hy => hxs y (List.mem_cons_of_mem x hy))]

theorem foldl_preserva {α β : Type _} (P : β → Prop) (f : β → α → β)
    (h : ∀ b a, P b → P (f b a)) : ∀ (l : List α) (b : β), P b → P (List.foldl f b l) := by
  intro l
  induction l with
  | nil => intro b hb; exact hb
  | cons x xs ih => intro b hb; exact ih (f b x) (h b x hb)

theorem contagemLinhas_append (rows rows2 : List Notificacao) (eid : Nat) (lm : Int)
    (canal : String) :
    contagemLinhas (rows ++ rows2) eid lm canal =
      contagemLinhas rows eid lm canal + contagemLinhas rows2 eid lm canal := by
  simp [contagemLinhas, List.filter_append]

theorem ja_enviada_eq_contagem (st : LedgerState) (eid : Nat) (lm : Int) (canal : String) :
    ja_enviada st eid lm canal = false ↔ contagemLinhas st.rows eid lm canal = 0 := by
  simp [ja_enviada, contagemLinhas, List.any_eq_false, List.length_eq_zero,
    List.filter_eq_nil_iff]

theorem rows_sem_nextId (st : LedgerState) (hwf : BemFormado st) :
    ∀ x ∈ st.rows, decide (x.id = st.nextId) = false := by
  intro x hx
  simp [Nat.ne_of_lt (hwf x hx)]

theorem tentar_envio_pulado (send : SendOracle) (agora : Int) (p : Evento × Lembrete)
    (s : EstadoCiclo)
    (hja : ja_enviada s.1 p.1.id p.2.minutos_antecedencia "email" = true) :
    tentar_envio send agora p s = s := by
  simp [tentar_envio, hja]

theorem tentar_envio_sucesso (send : SendOracle) (agora : Int) (evento : Evento)
    (l : Lembrete) (s : EstadoCiclo)
    (hwf : BemFormado s.1)
    (hja : ja_enviada s.1 evento.id l.minutos_antecedencia "email" = false)
    (hsend : send evento l = none) :
    tentar_envio send agora (evento, l) s =
      ({ rows := s.1.rows ++ [notifEnviada s.1.nextId evento.id l.minutos_antecedencia agora],
         nextId := s.1.nextId + 1 },
       s.2 ++ [envioDe evento]) := by
  simp only [tentar_envio, hja, Bool.false_eq_true, if_false, hsend, criar,
    marcar_enviado]
  have hmeio := updateFirst_meio (fun n => decide (n.id = s.1.nextId)) (aoEnviado agora)
    (notifPendente s.1.nextId evento.id l.minutos_antecedencia) [] s.1.rows
    (rows_sem_nextId s.1 hwf) (by simp [notifPendente])
  simp only [notifPendente] at hmeio
  simp [hmeio, aoEnviado, notifEnviada, envioDe]

theorem tentar_envio_falha (send : SendOracle) (agora : Int) (evento : Evento)
    (l : Lembrete) (s : EstadoCiclo) (e : String)
    (hwf : BemFormado s.1)
    (hja : ja_enviada s.1 evento.id l.minutos_antecedencia "email" = false)
    (hsend : send evento l = some e) :
    tentar_envio send agora (evento, l) s =
      ({ rows := s.1.rows ++
           [notifFalhou s.1.nextId evento.id l.minutos_antecedencia agora e],
         nextId := s.1.nextId + 1 },
       s.2 ++ [envioDe evento]) := by
  simp only [tentar_envio, hja, Bool.false_eq_true, if_false, hsend, criar,
    marcar_falha]
  have hmeio := updateFirst_meio (fun n => decide (n.id = s.1.nextId)) (aoFalha agora e)
    (notifPendente s.1.nextId evento.id l.minutos_antecedencia) [] s.1.rows
    (rows_sem_nextId s.1 hwf) (by simp [notifPendente])
  simp only [notifPendente] at hmeio
  simp [hmeio, aoFalha, notifFalhou, envioDe]

theorem contagemLinhas_unica (n : Notificacao) (eid : Nat) (lm : Int) (canal : String) :
    contagemLinhas [n] eid lm canal = if linhaEnviada n eid lm canal then 1 else 0 := by
  by_cases h : linhaEnviada n eid lm canal <;> simp [contagemLinhas, h]

theorem linhaEnviada_falhou (nid : Nat) (eid : Nat) (lm : Int) (t : Int) (e : String)
    (eid' : Nat) (lm' : Int) (canal' : String) :
    linhaEnviada (notifFalhou nid eid lm t e) eid' lm' canal' = false := by
  simp [linhaEnviada, notifFalhou]

theorem processar_par_preserva (send : SendOracle) (agora : Int) (evento : Evento)
    (l : Lembrete) (s : EstadoCiclo) (h : InvLedger s.1) :
    InvLedger (processar_par send agora evento l s).1 := by
  unfold processar_par
  split
  · exact h
  by_cases hja : ja_enviada s.1 evento.id l.minutos_antecedencia "email"
  · rw [tentar_envio_pulado send agora (evento, l) s hja]; exact h
  have hja' : ja_enviada s.1 evento.id l.minutos_antecedencia "email" = false := by
    simpa using hja
  rcases h with ⟨hwf, hmax⟩
  have h0 : contagemLinhas s.1.rows evento.id l.minutos_antecedencia "email" = 0 :=
    (ja_enviada_eq_contagem s.1 evento.id l.minutos_antecedencia "email").mp hja'
  cases hsend : send evento l with
  | none =>
    rw [tentar_envio_sucesso send agora evento l s hwf hja' hsend]
    constructor
    · intro n hn
      simp only [List.mem_append, List.mem_singleton] at hn
      rcases hn with hn | rfl
      · exact Nat.lt_succ_of_lt (hwf n hn)
      · simp [notifEnviada]
    · intro eid' lm' canal'
      simp only [contagemEnviadas, contagemLinhas_append, contagemLinhas_unica]
      by_cases hrow : linhaEnviada (notifEnviada s.1.nextId evento.id
          l.minutos_antecedencia agora) eid' lm' canal'
      · simp only [linhaEnviada, notifEnviada, decide_eq_true_eq] at hrow
        obtain ⟨h1, h2, h3, -⟩ := hrow
        subst h1; subst h2; subst h3
        simp [h0, linhaEnviada, notifEnviada]
      · simp only [hrow, if_false]
        have := hmax eid' lm' canal'
        simpa [contagemEnviadas] using this
  | some e =>
    rw [tentar_envio_falha send agora evento l s e hwf hja' hsend]
    constructor
    · intro n hn
      simp only [List.mem_append, List.mem_singleton] at hn
      rcases hn with hn | rfl
      · exact Nat.lt_succ_of_lt (hwf n hn)
      · simp [notifFalhou]
    · intro eid' lm' canal'
      simp only [contagemEnviadas, contagemLinhas_append, contagemLinhas_unica,
        linhaEnviada_falhou, if_false]
      have := hmax eid' lm' canal'
      simpa [contagemEnviadas] using this

theorem processar_lembretes_preserva (send : SendOracle) (agora : Int)
    (eventos : List Evento) (st : LedgerState) (h : InvLedger st) :
    InvLedger (processar_lembretes send agora eventos st).1 := by
  unfold processar_lembretes
  refine foldl_preserva (fun s : EstadoCiclo => InvLedger s.1) _ ?_ eventos (st, []) h
  intro s evento hs
  exact foldl_preserva (fun s2 : EstadoCiclo => InvLedger s2.1) _
    (fun s2 l hs2 => processar_par_preserva send agora evento l s2 hs2)
    evento.lembretes s hs

theorem runCycles_preserva (ciclos : List Ciclo) (st : LedgerState) (h : InvLedger st) :
    InvLedger (runCycles ciclos st) := by
  unfold runCycles
  exact foldl_preserva InvLedger _
    (fun st2 c hst => processar_lembretes_preserva c.send c.agora c.eventos st2 hst)
    ciclos st h

theorem invLedger_vazio : InvLedger ledgerVazio := by
  constructor
  · intro n hn
    simp [ledgerVazio] at hn
  · intro eid lm canal
    simp [contagemEnviadas, contagemLinhas, ledgerVazio]

/-- C1.  At-most-once success: starting from the empty ledger, after any number
of scheduler cycles (each with its own instant, event set and delivery
outcomes), every deduplication key `(eventId, leadMinutes, channel)` has at
most one ledger row with status `ENVIADO`; the dedup check `ja_enviada`
performed before every new attempt blocks further sends once such a row
exists. -/
theorem c1_no_maximo_um_envio (ciclos : List Ciclo) (eid : Nat) (lm : Int)
    (canal : String) :
    contagemEnviadas (runCycles ciclos ledgerVazio) eid lm canal ≤ 1 :=
  (runCycles_preserva ciclos ledgerVazio invLedger_vazio).2 eid lm canal

theorem updateFirst_length (p : α → Bool) (f : α → α) :
    ∀ l : List α, (updateFirst p f l).length = l.length
  | [] => rfl
  | x :: xs => by
    by_cases h : p x <;> simp [updateFirst, h, updateFirst_length p f xs]

/-- C2.  Dedup skip: for a due `(event, reminder)` pair on channel "email",
when a `ENVIADO` ledger row already exists for the key, processing the pair
leaves the cycle state untouched — no e-mail is handed to the delivery
channel, no row is created, and no error is raised (the function returns
normally); when no `ENVIADO` row exists (`PENDENTE`/`FALHOU` rows do not
count, by definition of `ja_enviada`), exactly one e-mail is attempted and
exactly one row is created. -/
theorem c2_pula_quando_enviada (send : SendOracle) (agora : Int) (evento : Evento)
    (l : Lembrete) (s : EstadoCiclo)
    (hdue : ¬ agora < evento.data_horario - l.minutos_antecedencia) :
    (ja_enviada s.1 evento.id l.minutos_antecedencia "email" = true →
      processar_par send agora evento l s = s) ∧
    (ja_enviada s.1 evento.id l.minutos_antecedencia "email" = false →
      (processar_par send agora evento l s).2 = s.2 ++ [envioDe evento] ∧
      (processar_par send agora evento l s).1.rows.length = s.1.rows.length + 1) ∧
    (ja_enviada s.1 evento.id l.minutos_antecedencia "email" = true ↔
      ∃ n ∈ s.1.rows, n.evento_id = evento.id ∧
        n.lembrete_minutos = l.minutos_antecedencia ∧ n.canal = "email" ∧
        n.status = StatusNotificacao.ENVIADO) := by
  refine ⟨?_, ?_, ?_⟩
  · intro hja
    rw [processar_par, if_neg hdue]
    exact tentar_envio_pulado send agora (evento, l) s hja
  · intro hja
    rw [processar_par, if_neg hdue]
    cases hsend : send evento l with
    | none =>
      constructor <;>
        simp [tentar_envio, hja, hsend, criar, marcar_enviado, updateFirst_length,
          envioDe]
    | some e =>
      constructor <;>
        simp [tentar_envio, hja, hsend, criar, marcar_falha, updateFirst_length,
          envioDe]
  · simp [ja_enviada, linhaEnviada, List.any_eq_true]

theorem c2_witness :
    processar_par sendSempreOk 840 eventoEx { minutos_antecedencia := 30 }
        (ledgerComEnviado, []) = (ledgerComEnviado, []) ∧
    (processar_par sendSempreOk 840 eventoEx { minutos_antecedencia := 30 }
        (ledgerVazio, [])).2 = [envioDe eventoEx] := by
  refine ⟨?_, ?_⟩
  · exact (c2_pula_quando_enviada sendSempreOk 840 eventoEx
      { minutos_antecedencia := 30 } (ledgerComEnviado, []) (by decide)).1 (by decide)
  · have h := (c2_pula_quando_enviada sendSempreOk 840 eventoEx
      { minutos_antecedencia := 30 } (ledgerVazio, []) (by decide)).2.1 (by decide)
    simpa using h.1

/-- C3.  Due-reminder evaluation: a pair `(event, reminder)` is yielded by the
evaluator at instant `agora` exactly when the event is in the store, the
reminder belongs to the event, and `agora` has reached the trigger instant
`data_horario - minutos_antecedencia`.  In particular nothing is yielded for a
reminder strictly before its trigger instant, and an event long past still
yields all its reminders. -/
theorem c3_devido_sse (agora : Int) (eventos : List Evento) (evento : Evento)
    (l : Lembrete) :
    (evento, l) ∈ lembretesDevidos agora eventos ↔
      (evento ∈ eventos ∧ l ∈ evento.lembretes ∧
        evento.data_horario - l.minutos_antecedencia ≤ agora) := by
  simp only [lembretesDevidos, List.mem_flatMap, List.mem_map, List.mem_filter,
    Bool.not_eq_true', decide_eq_false_iff_not, not_lt, Prod.mk.injEq]
  constructor
  · rintro ⟨ev2, hev2, l2, ⟨hl2, hle⟩, rfl, rfl⟩
    exact ⟨hev2, hl2, hle⟩
  · rintro ⟨hev, hl, hle⟩
    exact ⟨evento, hev, l, ⟨hl, hle⟩, rfl, rfl⟩

/-- C4.  Failure recording: for a due reminder with no prior `ENVIADO` row,
when the delivery channel fails with error text `e`, the cycle appends the
attempt's row transitioned to `FALHOU` with `data_envio` the failure instant
and `erro := some e`, hands exactly that one e-mail to the channel, and
returns normally — the exception is recorded, not propagated, and the
remaining reminders of the cycle are still processed (the exception-model run
of the same reminder continues with the rest of the list). -/
theorem c4_falha_registrada (send : SendOracle) (agora : Int) (evento : Evento)
    (l : Lembrete) (s : EstadoCiclo) (e : String) (ls : List Lembrete)
    (hwf : BemFormado s.1)
    (hdue : ¬ agora < evento.data_horario - l.minutos_antecedencia)
    (hja : ja_enviada s.1 evento.id l.minutos_antecedencia "email" = false)
    (hsend : send evento l = some e) :
    processar_par send agora evento l s =
      ({ rows := s.1.rows ++
           [notifFalhou s.1.nextId evento.id l.minutos_antecedencia agora e],
         nextId := s.1.nextId + 1 },
       s.2 ++ [envioDe evento]) ∧
    procLembretes_exc (fun _ _ => false) send agora evento (l :: ls) s.1 =
      procLembretes_exc (fun _ _ => false) send agora evento ls
        { rows := s.1.rows ++
            [notifFalhou s.1.nextId evento.id l.minutos_antecedencia agora e],
          nextId := s.1.nextId + 1 } := by
  have hpar : processar_par send agora evento l s =
      ({ rows := s.1.rows ++
           [notifFalhou s.1.nextId evento.id l.minutos_antecedencia agora e],
         nextId := s.1.nextId + 1 },
       s.2 ++ [envioDe evento]) := by
    rw [processar_par, if_neg hdue]
    exact tentar_envio_falha send agora evento l s e hwf hja hsend
  refine ⟨hpar, ?_⟩
  have hfalha : marcar_falha (criar s.1 evento.id l.minutos_antecedencia "email"
        StatusNotificacao.PENDENTE none none).1
      (criar s.1 evento.id l.minutos_antecedencia "email"
        StatusNotificacao.PENDENTE none none).2 agora e =
      { rows := s.1.rows ++
          [notifFalhou s.1.nextId evento.id l.minutos_antecedencia agora e],
        nextId := s.1.nextId + 1 } := by
    have h2 := congrArg Prod.fst hpar
    rw [processar_par, if_neg hdue] at h2
    simpa [tentar_envio, hja, hsend] using h2
  simp [procLembretes_exc, hdue, hja, hsend, hfalha]

theorem c4_witness :
    processar_par sendSempreFalha 840 eventoEx { minutos_antecedencia := 30 }
        (ledgerVazio, []) =
      ({ rows := [notifFalhou 1 1 30 840 "SMTP timeout"], nextId := 2 },
       [envioDe eventoEx]) := by
  have h := (c4_falha_registrada sendSempreFalha 840 eventoEx
    { minutos_antecedencia := 30 } (ledgerVazio, []) "SMTP timeout" []
    (by intro n hn; simp [ledgerVazio] at hn) (by decide) (by decide) rfl).1
  simpa [ledgerVazio] using h

/-- C6.  Retry-on-failure with frame condition: when a reminder is still due,
no `ENVIADO` row exists for its key (prior `FALHOU` rows do not block, by
definition of `ja_enviada`), and the channel now succeeds, the cycle appends a
fresh row that reaches `ENVIADO`; every prior row — in particular every prior
`FALHOU` row — is still present, unmodified and unduplicated, because the
whole old row list is a prefix of the new one. -/
theorem c6_nova_tentativa (send : SendOracle) (agora : Int) (evento : Evento)
    (l : Lembrete) (s : EstadoCiclo)
    (hwf : BemFormado s.1)
    (hdue : ¬ agora < evento.data_horario - l.minutos_antecedencia)
    (hja : ja_enviada s.1 evento.id l.minutos_antecedencia "email" = false)
    (hsend : send evento l = none) :
    (processar_par send agora evento l s).1.rows =
      s.1.rows ++ [notifEnviada s.1.nextId evento.id l.minutos_antecedencia agora] ∧
    ∀ n ∈ s.1.rows, n ∈ (processar_par send agora evento l s).1.rows := by
  have hpar : processar_par send agora evento l s =
      ({ rows := s.1.rows ++
           [notifEnviada s.1.nextId evento.id l.minutos_antecedencia agora],
         nextId := s.1.nextId + 1 },
       s.2 ++ [envioDe evento]) := by
    rw [processar_par, if_neg hdue]
    exact tentar_envio_sucesso send agora evento l s hwf hja hsend
  rw [hpar]
  exact ⟨rfl, fun n hn => by simp [hn]⟩

theorem c6_witness :
    (processar_par sendSempreOk 845 eventoEx { minutos_antecedencia := 30 }
        (ledgerComFalha, [])).1.rows =
      [notifFalhou 1 1 30 840 "SMTP timeout", notifEnviada 2 1 30 845] := by
  have h := (c6_nova_tentativa sendSempreOk 845 eventoEx
    { minutos_antecedencia := 30 } (ledgerComFalha, [])
    (by intro n hn; simp [ledgerComFalha] at hn; simp [hn, notifFalhou, ledgerComFalha])
    (by decide) (by decide) rfl).1
  simpa [ledgerComFalha] using h

/-- C8.  Negative lead-time rejection: `Evento.adicionar_lembrete` raises a
`ValueError` (modelled as `Except.error` with the source's message) for every
`minutos < 0`, so no `Lembrete` is appended and the event is unchanged;
for every `minutos ≥ 0` the reminder is appended to the event's list. -/
theorem c8_lembrete_negativo (ev : Evento) (minutos : Int) :
    (minutos < 0 → ev.adicionar_lembrete minutos =
      Except.error "O tempo de antecedência não pode ser negativo.") ∧
    (0 ≤ minutos → ev.adicionar_lembrete minutos =
      Except.ok { ev with
        lembretes := ev.lembretes ++ [{ minutos_antecedencia := minutos }] }) := by
  constructor
  · intro h
    simp [Evento.adicionar_lembrete, h]
  · intro h
    simp [Evento.adicionar_lembrete, not_lt.mpr h]

theorem c8_witness :
    eventoEx.adicionar_lembrete (-5) =
      Except.error "O tempo de antecedência não pode ser negativo." ∧
    eventoEx.adicionar_lembrete 15 =
      Except.ok { eventoEx with
        lembretes := eventoEx.lembretes ++ [{ minutos_antecedencia := 15 }] } :=
  ⟨(c8_lembrete_negativo eventoEx (-5)).1 (by decide),
   (c8_lembrete_negativo eventoEx 15).2 (by decide)⟩

/-- C10.  `marcar_enviado` and `marcar_falha` with an id absent from the
ledger are silent no-ops (no error, no row changed); with an id that is
present, exactly the first row carrying that id has its `status`,
`data_envio` and `erro` fields updated, and every other row is untouched. -/
theorem c10_marcar_por_id (st : LedgerState) (nid : Nat) (t : Int) (e : String) :
    ((∀ n ∈ st.rows, n.id ≠ nid) →
      marcar_enviado st nid t = st ∧ marcar_falha st nid t e = st) ∧
    (∀ xs r ys, st.rows = xs ++ r :: ys → r.id = nid → (∀ x ∈ xs, x.id ≠ nid) →
      (marcar_enviado st nid t).rows = xs ++ aoEnviado t r :: ys ∧
      (marcar_falha st nid t e).rows = xs ++ aoFalha t e r :: ys) := by
  constructor
  · intro h
    have hnone : ∀ n ∈ st.rows, (fun n : Notificacao => decide (n.id = nid)) n = false :=
      fun n hn => decide_eq_false (h n hn)
    constructor
    · simp [marcar_enviado, updateFirst_nenhum _ _ st.rows hnone]
    · simp [marcar_falha, updateFirst_nenhum _ _ st.rows hnone]
  · intro xs r ys hrows hr hxs
    have hxs2 : ∀ x ∈ xs, (fun n : Notificacao => decide (n.id = nid)) x = false :=
      fun x hx => decide_eq_false (hxs x hx)
    have hr2 : decide (r.id = nid) = true := decide_eq_true hr
    constructor
    · simp [marcar_enviado, hrows, updateFirst_meio _ _ r ys xs hxs2 hr2]
    · simp [marcar_falha, hrows, updateFirst_meio _ _ r ys xs hxs2 hr2]

theorem c10_witness :
    marcar_enviado ledgerComFalha 7 900 = ledgerComFalha ∧
    (marcar_enviado ledgerComFalha 1 900).rows =
      [aoEnviado 900 (notifFalhou 1 1 30 840 "SMTP timeout")] := by
  constructor
  · exact ((c10_marcar_por_id ledgerComFalha 7 900 "x").1 (by decide)).1
  · have h := ((c10_marcar_por_id ledgerComFalha 1 900 "x").2 []
      (notifFalhou 1 1 30 840 "SMTP timeout") [] (by decide) (by decide)
      (by intro x hx; simp at hx)).1
    simpa using h

theorem foldl_filtro {α β : Type _} (p : α → Bool) (f : β → α → β) :
    ∀ (l : List α) (b : β),
    (l.filter p).foldl f b = l.foldl (fun x y => if p y then f x y else x) b := by
  intro l
  induction l with
  | nil => intro b; rfl
  | cons x xs ih =>
    intro b
    by_cases h : p x <;> simp [List.filter_cons, h, ih]

theorem foldl_concatMapa {α β γ : Type _} (g : α → List γ) (f : β → γ → β) :
    ∀ (l : List α) (b : β),
    (l.flatMap g).foldl f b = l.foldl (fun x a => (g a).foldl f x) b := by
  intro l
  induction l with
  | nil => intro b; rfl
  | cons x xs ih => intro b; simp [List.flatMap_cons, List.foldl_append, ih]

theorem foldl_congr_fn {α β : Type _} {f g : β → α → β}
    (h : ∀ b a, f b a = g b a) : ∀ (l : List α) (b : β), l.foldl f b = l.foldl g b := by
  intro l
  induction l with
  | nil => intro b; rfl
  | cons x xs ih => intro b; rw [List.foldl_cons, List.foldl_cons, h, ih]

theorem processar_eq_devidos (send : SendOracle) (agora : Int) (eventos : List Evento)
    (st : LedgerState) :
    processar_lembretes send agora eventos st =
      (lembretesDevidos agora eventos).foldl (fun s p => tentar_envio send agora p s)
        (st, []) := by
  unfold processar_lembretes lembretesDevidos
  rw [foldl_concatMapa]
  apply foldl_congr_fn
  intro s ev
  rw [List.foldl_map, foldl_filtro]
  apply foldl_congr_fn
  intro s2 l
  by_cases h : agora < ev.data_horario - l.minutos_antecedencia <;>
    simp [processar_par, h]

/-- C9.  Idempotent evaluation: the Due-Reminder Evaluator is a pure function
of `(agora, eventos)` alone, so two runs on the same inputs yield the same due
list; moreover one scheduler cycle processes exactly the pairs the evaluator
yields (the cycle is the fold of the per-pair orchestration step over
`lembretesDevidos agora eventos`), so the inline due check of
`processar_lembretes` and the evaluator agree. -/
theorem c9_avaliacao_idempotente (agora : Int) (eventos : List Evento)
    (send : SendOracle) (st : LedgerState) :
    lembretesDevidos agora eventos = lembretesDevidos agora eventos ∧
    processar_lembretes send agora eventos st =
      (lembretesDevidos agora eventos).foldl (fun s p => tentar_envio send agora p s)
        (st, []) :=
  ⟨rfl, processar_eq_devidos send agora eventos st⟩

theorem procLembretes_exc_sem_falha (send : SendOracle) (agora : Int) (ev : Evento) :
    ∀ (ls : List Lembrete) (s : EstadoCiclo),
    procLembretes_exc (fun _ _ => false) send agora ev ls s.1 =
      ((ls.foldl (fun t l => processar_par send agora ev l t) s).1, none) := by
  intro ls
  induction ls with
  | nil => intro s; simp [procLembretes_exc]
  | cons l ls ih =>
    intro s
    have passo : procLembretes_exc (fun _ _ => false) send agora ev (l :: ls) s.1 =
        procLembretes_exc (fun _ _ => false) send agora ev ls
          (processar_par send agora ev l s).1 := by
      by_cases h1 : agora < ev.data_horario - l.minutos_antecedencia
      · simp [procLembretes_exc, h1, processar_par]
      by_cases h2 : ja_enviada s.1 ev.id l.minutos_antecedencia "email"
      · simp [procLembretes_exc, h1, h2, processar_par, tentar_envio]
      cases h3 : send ev l with
      | none => simp [procLembretes_exc, h1, h2, h3, processar_par, tentar_envio]
      | some e => simp [procLembretes_exc, h1, h2, h3, processar_par, tentar_envio]
    rw [passo, List.foldl_cons]
    exact ih (processar_par send agora ev l s)

theorem procEventos_exc_sem_falha (send : SendOracle) (agora : Int) :
    ∀ (evs : List Evento) (s : EstadoCiclo),
    procEventos_exc (fun _ _ => false) send agora evs s.1 =
      ((evs.foldl
          (fun t ev => ev.lembretes.foldl (fun t2 l => processar_par send agora ev l t2) t)
          s).1,
       none) := by
  intro evs
  induction evs with
  | nil => intro s; simp [procEventos_exc]
  | cons ev evs ih =>
    intro s
    have hl := procLembretes_exc_sem_falha send agora ev ev.lembretes s
    rw [procEventos_exc, hl, List.foldl_cons]
    exact ih (ev.lembretes.foldl (fun t2 l => processar_par send agora ev l t2) s)

/-- C5 (amended).  Per-reminder isolation holds only for the exception the
inner `try`/`except` of `processar_lembretes` guards: when no ledger
operation raises (only the delivery channel may fail), a cycle raises no
exception and its ledger equals the fault-free cycle's — every reminder is
processed no matter how many sends fail.  But an exception raised by the
dedup check `ja_enviada` while processing reminder `N` propagates: the
remaining reminders of the cycle are not processed and the partial ledger is
returned to the scheduler-loop boundary. -/
theorem c5_isolamento_entrega (ded : Nat → Int → Bool) (send : SendOracle)
    (agora : Int) (eventos : List Evento) (st : LedgerState) (evento : Evento)
    (l : Lembrete) (ls : List Lembrete) :
    (ded = (fun _ _ => false) →
      processar_lembretes_exc ded send agora eventos st =
        ((processar_lembretes send agora eventos st).1, none)) ∧
    (¬ agora < evento.data_horario - l.minutos_antecedencia →
      ded evento.id l.minutos_antecedencia = true →
      procLembretes_exc ded send agora evento (l :: ls) st = (st, some erroDedup)) := by
  constructor
  · intro hded
    subst hded
    exact procEventos_exc_sem_falha send agora eventos (st, [])
  · intro hdue hded
    simp [procLembretes_exc, hdue, hded]

/-- C5 counterexample: the claim as stated is false for exceptions from the
dedup check.  `eventoDois` has two due reminders (60 and 10 minutes, both due
at instant 850); the dedup query raises on the first key `(1, 60)`, and the
entire cycle aborts with the exception: the ledger stays empty, so the second
reminder was not processed — yet the fault-free cycle on the very same input
processes both reminders (two rows).  An exception from the dedup check of
reminder 1 thus prevented reminder 2 from being processed. -/
theorem c5_contraexemplo :
    processar_lembretes_exc dedupFalhaEm60 sendSempreOk 850 [eventoDois] ledgerVazio =
      (ledgerVazio, some erroDedup) ∧
    (processar_lembretes sendSempreOk 850 [eventoDois] ledgerVazio).1.rows.length = 2 := by
  constructor
  · rfl
  · rfl

theorem c5_witness :
    processar_lembretes_exc (fun _ _ => false) sendSempreFalha 850 [eventoDois]
        ledgerVazio =
      ((processar_lembretes sendSempreFalha 850 [eventoDois] ledgerVazio).1, none) ∧
    procLembretes_exc dedupFalhaEm60 sendSempreOk 850 eventoDois
        [{ minutos_antecedencia := 60 }, { minutos_antecedencia := 10 }] ledgerVazio =
      (ledgerVazio, some erroDedup) := by
  constructor
  · exact (c5_isolamento_entrega (fun _ _ => false) sendSempreFalha 850 [eventoDois]
      ledgerVazio eventoDois { minutos_antecedencia := 60 } []).1 rfl
  · exact (c5_isolamento_entrega dedupFalhaEm60 sendSempreOk 850 [] ledgerVazio
      eventoDois { minutos_antecedencia := 60 }
      [{ minutos_antecedencia := 10 }]).2 (by decide) (by decide)

theorem iniciar_mem (entradas : Nat → EntradaCiclo) (stopDuring : Nat → Bool) :
    ∀ (fuel i n : Nat) (st : LedgerState),
    n ∈ (iniciar entradas stopDuring fuel i st).2 ↔
      (i ≤ n ∧ n < i + fuel ∧ (List.range n).any stopDuring = false) := by
  intro fuel
  induction fuel with
  | zero =>
    intro i n st
    simp [iniciar]
    omega
  | succ fuel ih =>
    intro i n st
    by_cases hstop : (List.range i).any stopDuring
    · simp only [iniciar, hstop, if_true, List.not_mem_nil, false_iff]
      rintro ⟨h1, -, h3⟩
      rcases List.any_eq_true.mp hstop with ⟨j, hj, hsj⟩
      simp only [List.mem_range] at hj
      have : (List.range n).any stopDuring = true :=
        List.any_eq_true.mpr ⟨j, List.mem_range.mpr (by omega), hsj⟩
      rw [this] at h3
      exact absurd h3 (by simp)
    · have hstop2 : (List.range i).any stopDuring = false := by simpa using hstop
      simp only [iniciar, hstop2, Bool.false_eq_true, if_false, List.mem_cons]
      rw [ih]
      constructor
      · rintro (rfl | ⟨h1, h2, h3⟩)
        · exact ⟨Nat.le_refl n, by omega, hstop2⟩
        · exact ⟨by omega, by omega, h3⟩
      · rintro ⟨h1, h2, h3⟩
        by_cases hn : n = i
        · exact Or.inl hn
        · exact Or.inr ⟨by omega, by omega, h3⟩

/-- C7.  Scheduler loop robustness and cooperative stop: starting the loop at
cycle 0 with up to `fuel` iterations observed, cycle `n` executes exactly when
the loop has not run out of observed iterations and `parar()` was not called
during any cycle strictly before `n`.  Consequently (a) whether a cycle
executes is independent of the cycle bodies `entradas` — in particular of any
exception escaping an earlier cycle, which the loop's `try`/`except` catches
before sleeping and continuing — and (b) a `parar()` issued during cycle `n`
does not remove cycle `n` (the in-flight cycle completes) but removes every
later cycle: the flag is observed only between cycles. -/
theorem c7_robustez_e_parada (entradas : Nat → EntradaCiclo) (stopDuring : Nat → Bool)
    (fuel n : Nat) (st : LedgerState) :
    n ∈ (iniciar entradas stopDuring fuel 0 st).2 ↔
      (n < fuel ∧ (List.range n).any stopDuring = false) := by
  have h := iniciar_mem entradas stopDuring fuel 0 n st
  simpa using h

end SmartAgenda
